import Mathlib

/-!
Shallow embedding of the `vga` crate's color model (`src/colors.rs`) and
planar 640x480x16 graphics writer (`src/writers/graphics_640x480x16.rs`),
with theorems settling the specification claims about them.

Machine bytes (`u8`) are embedded as `Nat`; every value the code stores is
below 256, and where a claim depends on the 8-bit width the theorem carries
an explicit `< 256` hypothesis.  Rust's `!m` on `u8` is embedded as
`m ^^^ 0xFF`.
-/

/-- The 16 VGA colors (`enum Color16Bit` in src/colors.rs). -/
inductive Color16Bit where
  | Black
  | Blue
  | Green
  | Cyan
  | Red
  | Magenta
  | Brown
  | LightGrey
  | DarkGrey
  | LightBlue
  | LightGreen
  | LightCyan
  | LightRed
  | Pink
  | Yellow
  | White
  deriving DecidableEq, Fintype, Repr

/-- The discriminant of each color (`color as u8`): `#[repr(u8)]` with the
explicit values 0x0..0xF from src/colors.rs. -/
def Color16Bit.toU8 : Color16Bit → Nat
  | .Black => 0x0
  | .Blue => 0x1
  | .Green => 0x2
  | .Cyan => 0x3
  | .Red => 0x4
  | .Magenta => 0x5
  | .Brown => 0x6
  | .LightGrey => 0x7
  | .DarkGrey => 0x8
  | .LightBlue => 0x9
  | .LightGreen => 0xA
  | .LightCyan => 0xB
  | .LightRed => 0xC
  | .Pink => 0xD
  | .Yellow => 0xE
  | .White => 0xF

/-- Embeds `struct TextModeColor(u8)` from src/colors.rs: a packed byte. -/
structure TextModeColor where
  val : Nat
  deriving DecidableEq, Repr

/-- Embeds `TextModeColor::new`: `TextModeColor((background as u8) << 4 | (foreground as u8))`. -/
def TextModeColor.new (foreground background : Color16Bit) : TextModeColor :=
  ⟨(background.toU8 <<< 4) ||| foreground.toU8⟩

/-- Embeds `TextModeColor::set_background`: `self.0 = (background as u8) << 4 | (self.0 & 0x0F)`. -/
def TextModeColor.set_background (self : TextModeColor) (background : Color16Bit) :
    TextModeColor :=
  ⟨(background.toU8 <<< 4) ||| (self.val &&& 0x0F)⟩

/-- Embeds `TextModeColor::set_foreground`: `self.0 = foreground as u8`
(the source assigns the whole byte, not just the low nibble). -/
def TextModeColor.set_foreground (self : TextModeColor) (foreground : Color16Bit) :
    TextModeColor :=
  ⟨foreground.toU8⟩

/-- Embeds `PALETTE_SIZE` from src/colors.rs. -/
def PALETTE_SIZE : Nat := 768

/-- Embeds `DEFAULT_PALETTE` from src/colors.rs, the 768 palette bytes verbatim. -/
def DEFAULT_PALETTE : List Nat := [
  0x0, 0x0, 0x0, 0x0, 0x0, 0x2A, 0x0, 0x2A, 0x0, 0x0, 0x2A, 0x2A, 0x2A, 0x0, 0x0, 0x2A,
  0x0, 0x2A, 0x2A, 0x2A, 0x0, 0x2A, 0x2A, 0x2A, 0x0, 0x0, 0x15, 0x0, 0x0, 0x3F, 0x0, 0x2A,
  0x15, 0x0, 0x2A, 0x3F, 0x2A, 0x0, 0x15, 0x2A, 0x0, 0x3F, 0x2A, 0x2A, 0x15, 0x2A, 0x2A, 0x3F,
  0x0, 0x15, 0x0, 0x0, 0x15, 0x2A, 0x0, 0x3F, 0x0, 0x0, 0x3F, 0x2A, 0x2A, 0x15, 0x0, 0x2A,
  0x15, 0x2A, 0x2A, 0x3F, 0x0, 0x2A, 0x3F, 0x2A, 0x0, 0x15, 0x15, 0x0, 0x15, 0x3F, 0x0, 0x3F,
  0x15, 0x0, 0x3F, 0x3F, 0x2A, 0x15, 0x15, 0x2A, 0x15, 0x3F, 0x2A, 0x3F, 0x15, 0x2A, 0x3F, 0x3F,
  0x15, 0x0, 0x0, 0x15, 0x0, 0x2A, 0x15, 0x2A, 0x0, 0x15, 0x2A, 0x2A, 0x3F, 0x0, 0x0, 0x3F,
  0x0, 0x2A, 0x3F, 0x2A, 0x0, 0x3F, 0x2A, 0x2A, 0x15, 0x0, 0x15, 0x15, 0x0, 0x3F, 0x15, 0x2A,
  0x15, 0x15, 0x2A, 0x3F, 0x3F, 0x0, 0x15, 0x3F, 0x0, 0x3F, 0x3F, 0x2A, 0x15, 0x3F, 0x2A, 0x3F,
  0x15, 0x15, 0x0, 0x15, 0x15, 0x2A, 0x15, 0x3F, 0x0, 0x15, 0x3F, 0x2A, 0x3F, 0x15, 0x0, 0x3F,
  0x15, 0x2A, 0x3F, 0x3F, 0x0, 0x3F, 0x3F, 0x2A, 0x15, 0x15, 0x15, 0x15, 0x15, 0x3F, 0x15, 0x3F,
  0x15, 0x15, 0x3F, 0x3F, 0x3F, 0x15, 0x15, 0x3F, 0x15, 0x3F, 0x3F, 0x3F, 0x15, 0x3F, 0x3F, 0x3F,
  0x3F, 0x3F, 0x3F, 0x3F, 0x3F, 0x3F, 0x3F, 0x3F, 0x3F, 0x3F, 0x3F, 0x3F, 0x3F, 0x3F, 0x3F, 0x3F,
  0x3F, 0x3F, 0x3F, 0x3F, 0x3F, 0x3F, 0x3F, 0x3F, 0x3F, 0x3F, 0x3F, 0x3F, 0x3F, 0x3F, 0x3F, 0x3F,
  0x3F, 0x3F, 0x3F, 0x3F, 0x3F, 0x3F, 0x3F, 0x3F, 0x3F, 0x3F, 0x3F, 0x3F, 0x3F, 0x3F, 0x3F, 0x3F,
  0x3F, 0x3F, 0x3F, 0x3F, 0x3F, 0x3F, 0x3F, 0x3F, 0x3F, 0x3F, 0x3F, 0x3F, 0x3F, 0x3F, 0x3F, 0x3F,
  0x3F, 0x3F, 0x3F, 0x3F, 0x3F, 0x3F, 0x3F, 0x3F, 0x3F, 0x3F, 0x3F, 0x3F, 0x3F, 0x3F, 0x3F, 0x3F,
  0x3F, 0x3F, 0x3F, 0x3F, 0x3F, 0x3F, 0x3F, 0x3F, 0x3F, 0x3F, 0x3F, 0x3F, 0x3F, 0x3F, 0x3F, 0x3F,
  0x3F, 0x3F, 0x3F, 0x3F, 0x3F, 0x3F, 0x3F, 0x3F, 0x3F, 0x3F, 0x3F, 0x3F, 0x3F, 0x3F, 0x3F, 0x3F,
  0x3F, 0x3F, 0x3F, 0x3F, 0x3F, 0x3F, 0x3F, 0x3F, 0x3F, 0x3F, 0x3F, 0x3F, 0x3F, 0x3F, 0x3F, 0x3F,
  0x3F, 0x3F, 0x3F, 0x3F, 0x3F, 0x3F, 0x3F, 0x3F, 0x3F, 0x3F, 0x3F, 0x3F, 0x3F, 0x3F, 0x3F, 0x3F,
  0x3F, 0x3F, 0x3F, 0x3F, 0x3F, 0x3F, 0x3F, 0x3F, 0x3F, 0x3F, 0x3F, 0x3F, 0x3F, 0x3F, 0x3F, 0x3F,
  0x3F, 0x3F, 0x3F, 0x3F, 0x3F, 0x3F, 0x3F, 0x3F, 0x3F, 0x3F, 0x3F, 0x3F, 0x3F, 0x3F, 0x3F, 0x3F,
  0x3F, 0x3F, 0x3F, 0x3F, 0x3F, 0x3F, 0x3F, 0x3F, 0x3F, 0x3F, 0x3F, 0x3F, 0x3F, 0x3F, 0x3F, 0x3F,
  0x3F, 0x3F, 0x3F, 0x3F, 0x3F, 0x3F, 0x3F, 0x3F, 0x3F, 0x3F, 0x3F, 0x3F, 0x3F, 0x3F, 0x3F, 0x3F,
  0x3F, 0x3F, 0x3F, 0x3F, 0x3F, 0x3F, 0x3F, 0x3F, 0x3F, 0x3F, 0x3F, 0x3F, 0x3F, 0x3F, 0x3F, 0x3F,
  0x3F, 0x3F, 0x3F, 0x3F, 0x3F, 0x3F, 0x3F, 0x3F, 0x3F, 0x3F, 0x3F, 0x3F, 0x3F, 0x3F, 0x3F, 0x3F,
  0x3F, 0x3F, 0x3F, 0x3F, 0x3F, 0x3F, 0x3F, 0x3F, 0x3F, 0x3F, 0x3F, 0x3F, 0x3F, 0x3F, 0x3F, 0x3F,
  0x3F, 0x3F, 0x3F, 0x3F, 0x3F, 0x3F, 0x3F, 0x3F, 0x3F, 0x3F, 0x3F, 0x3F, 0x3F, 0x3F, 0x3F, 0x3F,
  0x3F, 0x3F, 0x3F, 0x3F, 0x3F, 0x3F, 0x3F, 0x3F, 0x3F, 0x3F, 0x3F, 0x3F, 0x3F, 0x3F, 0x3F, 0x3F,
  0x3F, 0x3F, 0x3F, 0x3F, 0x3F, 0x3F, 0x3F, 0x3F, 0x3F, 0x3F, 0x3F, 0x3F, 0x3F, 0x3F, 0x3F, 0x3F,
  0x3F, 0x3F, 0x3F, 0x3F, 0x3F, 0x3F, 0x3F, 0x3F, 0x3F, 0x3F, 0x3F, 0x3F, 0x3F, 0x3F, 0x3F, 0x3F,
  0x3F, 0x3F, 0x3F, 0x3F, 0x3F, 0x3F, 0x3F, 0x3F, 0x3F, 0x3F, 0x3F, 0x3F, 0x3F, 0x3F, 0x3F, 0x3F,
  0x3F, 0x3F, 0x3F, 0x3F, 0x3F, 0x3F, 0x3F, 0x3F, 0x3F, 0x3F, 0x3F, 0x3F, 0x3F, 0x3F, 0x3F, 0x3F,
  0x3F, 0x3F, 0x3F, 0x3F, 0x3F, 0x3F, 0x3F, 0x3F, 0x3F, 0x3F, 0x3F, 0x3F, 0x3F, 0x3F, 0x3F, 0x3F,
  0x3F, 0x3F, 0x3F, 0x3F, 0x3F, 0x3F, 0x3F, 0x3F, 0x3F, 0x3F, 0x3F, 0x3F, 0x3F, 0x3F, 0x3F, 0x3F,
  0x3F, 0x3F, 0x3F, 0x3F, 0x3F, 0x3F, 0x3F, 0x3F, 0x3F, 0x3F, 0x3F, 0x3F, 0x3F, 0x3F, 0x3F, 0x3F,
  0x3F, 0x3F, 0x3F, 0x3F, 0x3F, 0x3F, 0x3F, 0x3F, 0x3F, 0x3F, 0x3F, 0x3F, 0x3F, 0x3F, 0x3F, 0x3F,
  0x3F, 0x3F, 0x3F, 0x3F, 0x3F, 0x3F, 0x3F, 0x3F, 0x3F, 0x3F, 0x3F, 0x3F, 0x3F, 0x3F, 0x3F, 0x3F,
  0x3F, 0x3F, 0x3F, 0x3F, 0x3F, 0x3F, 0x3F, 0x3F, 0x3F, 0x3F, 0x3F, 0x3F, 0x3F, 0x3F, 0x3F, 0x3F,
  0x3F, 0x3F, 0x3F, 0x3F, 0x3F, 0x3F, 0x3F, 0x3F, 0x3F, 0x3F, 0x3F, 0x3F, 0x3F, 0x3F, 0x3F, 0x3F,
  0x3F, 0x3F, 0x3F, 0x3F, 0x3F, 0x3F, 0x3F, 0x3F, 0x3F, 0x3F, 0x3F, 0x3F, 0x3F, 0x3F, 0x3F, 0x3F,
  0x3F, 0x3F, 0x3F, 0x3F, 0x3F, 0x3F, 0x3F, 0x3F, 0x3F, 0x3F, 0x3F, 0x3F, 0x3F, 0x3F, 0x3F, 0x3F,
  0x3F, 0x3F, 0x3F, 0x3F, 0x3F, 0x3F, 0x3F, 0x3F, 0x3F, 0x3F, 0x3F, 0x3F, 0x3F, 0x3F, 0x3F, 0x3F,
  0x3F, 0x3F, 0x3F, 0x3F, 0x3F, 0x3F, 0x3F, 0x3F, 0x3F, 0x3F, 0x3F, 0x3F, 0x3F, 0x3F, 0x3F, 0x3F,
  0x3F, 0x3F, 0x3F, 0x3F, 0x3F, 0x3F, 0x3F, 0x3F, 0x3F, 0x3F, 0x3F, 0x3F, 0x3F, 0x3F, 0x3F, 0x3F,
  0x3F, 0x3F, 0x3F, 0x3F, 0x3F, 0x3F, 0x3F, 0x3F, 0x3F, 0x3F, 0x3F, 0x3F, 0x3F, 0x3F, 0x3F, 0x3F,
  0x3F, 0x3F, 0x3F, 0x3F, 0x3F, 0x3F, 0x3F, 0x3F, 0x3F, 0x3F, 0x3F, 0x3F, 0x3F, 0x3F, 0x3F, 0x3F]

/-- Modelled from the spec: the video mode `set_mode` selects.  The `VideoMode`
enum lives in vga.rs, outside src/; only the variant the writer uses is needed. -/
inductive VideoMode where
  | Mode640x480x16
  deriving DecidableEq, Repr

/-- Modelled from the spec: the two device-singleton collaborator calls
`set_mode` issues (`set_video_mode` and `load_palette`), recorded as an event
trace since their implementations are external to src/. -/
inductive VgaEvent where
  | setVideoMode (mode : VideoMode)
  | loadPalette (palette : List Nat)
  deriving DecidableEq

/-- Embeds `Graphics640x480x16::set_mode`: under the device lock, call
`set_video_mode(VideoMode::Mode640x480x16)` and then unconditionally
`load_palette(&DEFAULT_PALETTE)`; embedded as the straight-line trace of
collaborator calls the body makes. -/
def Graphics640x480x16.set_mode : List VgaEvent :=
  [VgaEvent.setVideoMode VideoMode.Mode640x480x16,
   VgaEvent.loadPalette DEFAULT_PALETTE]

/-- Embeds `WIDTH` from src/writers/graphics_640x480x16.rs. -/
def WIDTH : Nat := 640

/-- Embeds `HEIGHT` from src/writers/graphics_640x480x16.rs. -/
def HEIGHT : Nat := 480

/-- Embeds `ALL_PLANES_SCREEN_SIZE = (WIDTH * HEIGHT) / 4` from
src/writers/graphics_640x480x16.rs. -/
def ALL_PLANES_SCREEN_SIZE : Nat := WIDTH * HEIGHT / 4

/-- Modelled from the spec: the adapter state the planar writer manipulates.
The register layer (registers.rs) and device singleton (vga.rs) are external
collaborators, specified only at their interface: four bit-planes of
frame-buffer bytes, the sequencer plane-write mask, the graphics-controller
read-plane select, and the write-enable set/reset mask. -/
structure VgaState where
  planes : Fin 4 → Nat → Nat
  planeMask : Fin 4 → Bool
  readPlane : Fin 4
  setReset : Fin 4 → Bool

/-- Modelled from the spec: `PlaneMask::ALL_PLANES` — every plane write-enabled. -/
def PlaneMask.ALL_PLANES : Fin 4 → Bool := fun _ => true

/-- Modelled from the spec: `PlaneMask::NONE` — no plane selected. -/
def PlaneMask.NONE : Fin 4 → Bool := fun _ => false

/-- Modelled from the spec: the single-plane mask `plane.try_into()` yields for
a plane index 0..3. -/
def PlaneMask.single (p : Fin 4) : Fin 4 → Bool := fun q => decide (q = p)

/-- Modelled from the spec: `sequencer_registers.set_plane_mask` — program which
planes a subsequent memory write touches. -/
def VgaState.set_plane_mask (st : VgaState) (m : Fin 4 → Bool) : VgaState :=
  { st with planeMask := m }

/-- Modelled from the spec: `graphics_controller_registers.write_read_plane` —
select the plane a subsequent memory read returns. -/
def VgaState.write_read_plane (st : VgaState) (p : Fin 4) : VgaState :=
  { st with readPlane := p }

/-- Modelled from the spec: `graphics_controller_registers.write_enable_set_reset`
— record the write-enable set/reset mask (`clear_screen` asserts `NONE`, the
data path the per-byte write model below assumes). -/
def VgaState.write_enable_set_reset (st : VgaState) (m : Fin 4 → Bool) : VgaState :=
  { st with setReset := m }

/-- Modelled from the spec: `frame_buffer.add(offset).read_volatile()` returns
the byte of the currently selected read plane at `offset`. -/
def VgaState.read_volatile (st : VgaState) (offset : Nat) : Nat :=
  st.planes st.readPlane offset

/-- Modelled from the spec: `frame_buffer.add(offset).write_volatile(b)` stores
`b` at `offset` in every write-enabled plane and leaves all other bytes alone. -/
def VgaState.write_volatile (st : VgaState) (offset : Nat) (b : Nat) : VgaState :=
  { st with
    planes := fun p o => if st.planeMask p = true ∧ o = offset then b else st.planes p o }

/-- Embeds `Graphics640x480x16::clear_screen`: set the plane mask to `ALL_PLANES`,
set write-enable set/reset to `NONE`, then `write_volatile(Black as u8)` at
every offset in `0..ALL_PLANES_SCREEN_SIZE`. -/
def Graphics640x480x16.clear_screen (st : VgaState) : VgaState :=
  let st := st.set_plane_mask PlaneMask.ALL_PLANES
  let st := st.write_enable_set_reset PlaneMask.NONE
  List.foldl (fun s offset => s.write_volatile offset Color16Bit.Black.toU8)
    st (List.range ALL_PLANES_SCREEN_SIZE)

/-- One iteration of the `for plane in 0u8..4u8` loop in
`Graphics640x480x16::set_pixel`: select `plane` for reading and writing, read
the byte at `offset`, OR in `mask` if `plane_mask & color != 0` holds and AND
it out otherwise, write the byte back, and shift `plane_mask` left.  The
accumulator pairs the device state with the running `plane_mask`. -/
def set_pixel_step (offset mask : Nat) (color : Color16Bit)
    (acc : VgaState × Nat) (plane : Fin 4) : VgaState × Nat :=
  let st := acc.1
  let plane_mask := acc.2
  let st := st.write_read_plane plane
  let st := st.set_plane_mask (PlaneMask.single plane)
  let current_value := st.read_volatile offset
  let new_value :=
    if plane_mask &&& color.toU8 ≠ 0 then current_value ||| mask
    else current_value &&& (mask ^^^ 0xFF)
  let st := st.write_volatile offset new_value
  (st, plane_mask <<< 1)

/-- Embeds `Graphics640x480x16::set_pixel`: `offset = x / 8 + (WIDTH / 8) * y`,
`x = x & 7`, `mask = 0x80 >> (x & 7)`, then the plane loop with `plane_mask`
starting at `0x01` (`mask ^^^ 0xFF` embeds `!mask` on `u8`). -/
def Graphics640x480x16.set_pixel (st : VgaState) (x y : Nat) (color : Color16Bit) :
    VgaState :=
  let offset := x / 8 + (WIDTH / 8) * y
  let x := x &&& 7
  let mask := 0x80 >>> (x &&& 7)
  (List.foldl (set_pixel_step offset mask color) (st, 0x01)
    [(0 : Fin 4), 1, 2, 3]).1

/-- The byte offset `set_pixel` computes for `(x, y)`. -/
def pixelOffset (x y : Nat) : Nat := x / 8 + (WIDTH / 8) * y

/-- The bit mask `set_pixel` computes for column `x`. -/
def pixelMask (x : Nat) : Nat := 0x80 >>> (x &&& 7 &&& 7)

/-- The bit index within a byte that the spec assigns to column `x`. -/
def pixelBit (x : Nat) : Nat := 7 - x % 8

/-- A concrete all-zero device state used by the witness theorems. -/
def initState : VgaState :=
  { planes := fun _ _ => 0
    planeMask := PlaneMask.NONE
    readPlane := 0
    setReset := PlaneMask.NONE }

lemma two_pow_and_ne_iff (c p : Nat) : (2 ^ p &&& c ≠ 0) ↔ c.testBit p := by
  rw [Nat.two_pow_and]
  cases h : c.testBit p <;> simp [Nat.pos_iff_ne_zero, Nat.pow_pos]

lemma and_seven_eq_mod (x : Nat) : x &&& 7 = x % 8 := by
  apply Nat.eq_of_testBit_eq
  intro i
  have h7 : (7 : Nat) = 2 ^ 3 - 1 := by norm_num
  have h8 : (8 : Nat) = 2 ^ 3 := by norm_num
  have h7t : Nat.testBit 7 i = decide (i < 3) := by
    rw [h7, Nat.testBit_two_pow_sub_one]
  rw [h8, Nat.testBit_mod_two_pow, Nat.testBit_and, h7t, Bool.and_comm]

lemma pixelBit_lt (x : Nat) : pixelBit x < 8 := by
  unfold pixelBit
  omega

lemma pixelMask_eq (x : Nat) : pixelMask x = 2 ^ pixelBit x := by
  unfold pixelMask pixelBit
  rw [and_seven_eq_mod, and_seven_eq_mod, Nat.mod_mod]
  have hk : x % 8 < 8 := Nat.mod_lt x (by norm_num)
  generalize x % 8 = k at hk ⊢
  interval_cases k <;> rfl

lemma set_pixel_eq (st : VgaState) (x y : Nat) (color : Color16Bit) :
    Graphics640x480x16.set_pixel st x y color =
      { planes := fun p o =>
          if o = pixelOffset x y then
            (if Nat.testBit color.toU8 p.val then
               st.planes p (pixelOffset x y) ||| pixelMask x
             else st.planes p (pixelOffset x y) &&& (pixelMask x ^^^ 0xFF))
          else st.planes p o
        planeMask := PlaneMask.single 3
        readPlane := 3
        setReset := st.setReset } := by
  unfold Graphics640x480x16.set_pixel set_pixel_step pixelOffset pixelMask
  simp only [List.foldl, VgaState.write_read_plane, VgaState.set_plane_mask,
    VgaState.read_volatile, VgaState.write_volatile, PlaneMask.single]
  simp only [VgaState.mk.injEq]
  refine ⟨?_, by decide, by decide, trivial⟩
  funext p o
  fin_cases p <;> cases color <;>
    simp +decide [two_pow_and_ne_iff]

lemma testBit_pixelMask (x i : Nat) :
    (pixelMask x).testBit i = decide (pixelBit x = i) := by
  rw [pixelMask_eq, Nat.testBit_two_pow]

lemma testBit_255 (i : Nat) (h : i < 8) : Nat.testBit 255 i = true := by
  have h255 : (255 : Nat) = 2 ^ 8 - 1 := by norm_num
  rw [h255, Nat.testBit_two_pow_sub_one]
  simpa using h

lemma set_pixel_readback (st : VgaState) (x y : Nat) (c : Color16Bit) (p : Fin 4) :
    ((Graphics640x480x16.set_pixel st x y c).planes p (pixelOffset x y)).testBit (pixelBit x)
      = c.toU8.testBit p.val := by
  rw [set_pixel_eq]
  by_cases h : c.toU8.testBit p.val
  · simp [h, testBit_pixelMask]
  · simp [h, testBit_pixelMask, testBit_255 _ (pixelBit_lt x)]

lemma clear_fold (b : Nat) (n : Nat) (st : VgaState) :
    List.foldl (fun s offset => s.write_volatile offset b) st (List.range n) =
      { st with planes := fun p o =>
          if st.planeMask p = true ∧ o < n then b else st.planes p o } := by
  induction n with
  | zero =>
      obtain ⟨pl, pm, rp, sr⟩ := st
      simp [VgaState.mk.injEq]
  | succ n ih =>
      rw [List.range_succ, List.foldl_append, ih]
      obtain ⟨pl, pm, rp, sr⟩ := st
      simp only [List.foldl, VgaState.write_volatile, VgaState.mk.injEq, and_true, true_and]
      funext p o
      by_cases hp : pm p <;>
        simp [hp] <;> split_ifs <;> first | rfl | omega

lemma clear_screen_eq (st : VgaState) :
    Graphics640x480x16.clear_screen st =
      { st with
        planes := fun p o => if o < ALL_PLANES_SCREEN_SIZE then 0 else st.planes p o
        planeMask := PlaneMask.ALL_PLANES
        setReset := PlaneMask.NONE } := by
  unfold Graphics640x480x16.clear_screen
  rw [clear_fold]
  obtain ⟨pl, pm, rp, sr⟩ := st
  simp only [VgaState.set_plane_mask, VgaState.write_enable_set_reset, VgaState.mk.injEq,
    PlaneMask.ALL_PLANES, Color16Bit.toU8, true_and, and_true]

lemma toU8_lt (c : Color16Bit) : c.toU8 < 16 := by
  cases c <;> decide

lemma nibble_pack_and (a b : Nat) (hb : b < 16) : ((a <<< 4) ||| b) &&& 0x0F = b := by
  apply Nat.eq_of_testBit_eq
  intro i
  have h15 : (0x0F : Nat) = 2 ^ 4 - 1 := by norm_num
  rw [Nat.testBit_and, Nat.testBit_or, Nat.testBit_shiftLeft, h15,
    Nat.testBit_two_pow_sub_one]
  by_cases hi : i < 4
  · simp [hi, Nat.not_le.mpr hi]
  · have hbI : b < 2 ^ i := by
      calc b < 2 ^ 4 := by omega
        _ ≤ 2 ^ i := Nat.pow_le_pow_right (by norm_num) (by omega)
    simp [hi, Nat.testBit_lt_two_pow hbI]

lemma nibble_pack_shift (a b : Nat) (hb : b < 16) : ((a <<< 4) ||| b) >>> 4 = a := by
  apply Nat.eq_of_testBit_eq
  intro i
  rw [Nat.testBit_shiftRight, Nat.testBit_or, Nat.testBit_shiftLeft]
  have hbI : b < 2 ^ (4 + i) := by
    calc b < 2 ^ 4 := by omega
      _ ≤ 2 ^ (4 + i) := Nat.pow_le_pow_right (by norm_num) (by omega)
  simp [Nat.testBit_lt_two_pow hbI, Nat.add_sub_cancel_left]

lemma nibble_pack_lt (a b : Nat) (ha : a < 16) (hb : b < 16) : ((a <<< 4) ||| b) < 256 := by
  have h1 : a <<< 4 < 256 := by
    rw [Nat.shiftLeft_eq]
    omega
  have h2 : b < 256 := by omega
  have : (256 : Nat) = 2 ^ 8 := by norm_num
  rw [this] at h1 h2 ⊢
  exact Nat.or_lt_two_pow h1 h2

lemma pixelOffset_eq (x y : Nat) : pixelOffset x y = x / 8 + 80 * y := rfl

/-- C1: the claim that `set_foreground` leaves the background nibble unchanged
fails on the code: `set_foreground` assigns the whole packed byte
(`self.0 = foreground as u8`), so starting from
`TextModeColor::new(Yellow, DarkGrey)` (byte 0x8E, background nibble 8),
`set_foreground(Red)` yields byte 0x04 whose background nibble is 0, not 8. -/
theorem set_foreground_clobbers_background :
    ((TextModeColor.new Color16Bit.Yellow Color16Bit.DarkGrey).set_foreground
        Color16Bit.Red).val = 0x04
    ∧ ((TextModeColor.new Color16Bit.Yellow Color16Bit.DarkGrey).set_foreground
        Color16Bit.Red).val >>> 4 = 0
    ∧ (TextModeColor.new Color16Bit.Yellow Color16Bit.DarkGrey).val >>> 4 = 8 := by
  decide

/-- C2: for in-range `(x, y)`, after `set_pixel(x, y, c)` the four bits read
back at bit `7 - x % 8` of the byte at offset `x / 8 + 80 * y`, the bit from
plane `p` weighted by `2 ^ p`, reconstruct exactly `c`'s 4-bit code. -/
theorem set_pixel_roundtrip (st : VgaState) (x y : Nat) (c : Color16Bit)
    (hx : x < 640) (hy : y < 480) :
    (((Graphics640x480x16.set_pixel st x y c).planes 0 (x / 8 + 80 * y)).testBit
        (7 - x % 8)).toNat
      + 2 * (((Graphics640x480x16.set_pixel st x y c).planes 1 (x / 8 + 80 * y)).testBit
        (7 - x % 8)).toNat
      + 4 * (((Graphics640x480x16.set_pixel st x y c).planes 2 (x / 8 + 80 * y)).testBit
        (7 - x % 8)).toNat
      + 8 * (((Graphics640x480x16.set_pixel st x y c).planes 3 (x / 8 + 80 * y)).testBit
        (7 - x % 8)).toNat
      = c.toU8 := by
  have key : ∀ p : Fin 4,
      ((Graphics640x480x16.set_pixel st x y c).planes p (x / 8 + 80 * y)).testBit (7 - x % 8)
        = c.toU8.testBit p.val := by
    intro p
    have h := set_pixel_readback st x y c p
    rwa [pixelOffset_eq] at h
  rw [key 0, key 1, key 2, key 3]
  cases c <;> decide

/-- Witness for C2 at `(x, y) = (13, 7)` with color Yellow on the all-zero
state. -/
theorem set_pixel_roundtrip_witness :
    (((Graphics640x480x16.set_pixel initState 13 7 Color16Bit.Yellow).planes 0
        (13 / 8 + 80 * 7)).testBit (7 - 13 % 8)).toNat
      + 2 * (((Graphics640x480x16.set_pixel initState 13 7 Color16Bit.Yellow).planes 1
        (13 / 8 + 80 * 7)).testBit (7 - 13 % 8)).toNat
      + 4 * (((Graphics640x480x16.set_pixel initState 13 7 Color16Bit.Yellow).planes 2
        (13 / 8 + 80 * 7)).testBit (7 - 13 % 8)).toNat
      + 8 * (((Graphics640x480x16.set_pixel initState 13 7 Color16Bit.Yellow).planes 3
        (13 / 8 + 80 * 7)).testBit (7 - 13 % 8)).toNat
      = Color16Bit.Yellow.toU8 :=
  set_pixel_roundtrip initState 13 7 Color16Bit.Yellow (by decide) (by decide)

/-- C3: the addressing transform of `set_pixel`: in-range coordinates give an
offset below 38400 and a bit index below 8; the mask the code computes is
`2 ^ (7 - x % 8)`; and the two corner cases come out as the spec states. -/
theorem set_pixel_addressing (x y : Nat) (hx : x < 640) (hy : y < 480) :
    pixelOffset x y < 38400 ∧ pixelBit x < 8
      ∧ pixelMask x = 2 ^ pixelBit x
      ∧ pixelOffset 0 0 = 0 ∧ pixelBit 0 = 7
      ∧ pixelOffset 639 479 = 38399 ∧ pixelBit 639 = 0 := by
  refine ⟨?_, pixelBit_lt x, pixelMask_eq x, by decide, by decide, by decide, by decide⟩
  rw [pixelOffset_eq]
  omega

/-- Witness for C3 at `(x, y) = (637, 479)`. -/
theorem set_pixel_addressing_witness :
    pixelOffset 637 479 < 38400 ∧ pixelBit 637 < 8
      ∧ pixelMask 637 = 2 ^ pixelBit 637
      ∧ pixelOffset 0 0 = 0 ∧ pixelBit 0 = 7
      ∧ pixelOffset 639 479 = 38399 ∧ pixelBit 639 = 0 :=
  set_pixel_addressing 637 479 (by decide) (by decide)

/-- C4: after `clear_screen` the byte at every offset in
`0..ALL_PLANES_SCREEN_SIZE = 0..76800` is zero in every plane, with all four
planes left write-enabled by the single broadcast plane mask. -/
theorem clear_screen_all_black (st : VgaState) (p : Fin 4) (o : Nat)
    (ho : o < ALL_PLANES_SCREEN_SIZE) :
    (Graphics640x480x16.clear_screen st).planes p o = 0
    ∧ (Graphics640x480x16.clear_screen st).planeMask = PlaneMask.ALL_PLANES
    ∧ ALL_PLANES_SCREEN_SIZE = 76800 := by
  rw [clear_screen_eq]
  exact ⟨by simp [ho], rfl, by decide⟩

/-- Witness for C4 at plane 2, offset 76799, on the all-zero state. -/
theorem clear_screen_all_black_witness :
    (Graphics640x480x16.clear_screen initState).planes 2 76799 = 0
    ∧ (Graphics640x480x16.clear_screen initState).planeMask = PlaneMask.ALL_PLANES
    ∧ ALL_PLANES_SCREEN_SIZE = 76800 :=
  clear_screen_all_black initState 2 76799 (by decide)

/-- C5: `set_pixel` changes no frame-buffer byte other than the one at
`x / 8 + 80 * y`, and within that byte changes no bit other than `7 - x % 8`,
in every plane (for byte-valued initial states). -/
theorem set_pixel_frame (st : VgaState) (x y : Nat) (c : Color16Bit)
    (hwf : ∀ p o, st.planes p o < 256) (hx : x < 640) (hy : y < 480) :
    (∀ (p : Fin 4) (o : Nat), o ≠ x / 8 + 80 * y →
        (Graphics640x480x16.set_pixel st x y c).planes p o = st.planes p o)
    ∧ (∀ (p : Fin 4) (i : Nat), i ≠ 7 - x % 8 →
        ((Graphics640x480x16.set_pixel st x y c).planes p (x / 8 + 80 * y)).testBit i
          = (st.planes p (x / 8 + 80 * y)).testBit i) := by
  constructor
  · intro p o ho
    rw [set_pixel_eq]
    simp only [← pixelOffset_eq x y] at ho
    simp [ho]
  · intro p i hi
    have hbit : ¬(pixelBit x = i) := by
      unfold pixelBit
      omega
    rw [set_pixel_eq]
    simp only [← pixelOffset_eq x y]
    by_cases hc : c.toU8.testBit p.val
    · simp [hc, testBit_pixelMask, hbit]
    · by_cases hi8 : i < 8
      · simp [hc, testBit_pixelMask, hbit, testBit_255 i hi8]
      · have hlt : st.planes p (pixelOffset x y) < 2 ^ i := by
          calc st.planes p (pixelOffset x y) < 256 := hwf p _
            _ = 2 ^ 8 := by norm_num
            _ ≤ 2 ^ i := Nat.pow_le_pow_right (by norm_num) (by omega)
        simp [hc, Nat.testBit_lt_two_pow hlt]

/-- Witness for C5: `set_pixel(13, 7, Yellow)` on the all-zero state leaves the
byte at offset 0 of plane 0 unchanged. -/
theorem set_pixel_frame_witness :
    (Graphics640x480x16.set_pixel initState 13 7 Color16Bit.Yellow).planes 0 0
      = initState.planes 0 0 :=
  (set_pixel_frame initState 13 7 Color16Bit.Yellow (fun _ _ => Nat.succ_pos 255)
    (by decide) (by decide)).1 0 0 (by decide)

/-- C6: `set_pixel` performs no bounds check: for out-of-range `(x, y)` it
still performs the read-modify-write at offset `x / 8 + 80 * y` (depositing the
color bits there exactly as for in-range pixels), and for some such inputs —
for example `(0, 480)` — that offset is at least 38400, outside the per-plane
visible range. -/
theorem set_pixel_no_bounds_check (st : VgaState) (x y : Nat) (c : Color16Bit)
    (h : 640 ≤ x ∨ 480 ≤ y) :
    (∀ p : Fin 4,
        ((Graphics640x480x16.set_pixel st x y c).planes p (x / 8 + 80 * y)).testBit
            (7 - x % 8)
          = c.toU8.testBit p.val)
    ∧ (∃ x' y', (640 ≤ x' ∨ 480 ≤ y') ∧ 38400 ≤ x' / 8 + 80 * y') := by
  refine ⟨fun p => ?_, ⟨0, 480, Or.inr (le_refl _), by norm_num⟩⟩
  have hrb := set_pixel_readback st x y c p
  rwa [pixelOffset_eq] at hrb

/-- Witness for C6: `set_pixel(0, 480, White)` on the all-zero state sets the
bit at offset `0 / 8 + 80 * 480 = 38400` in plane 0. -/
theorem set_pixel_no_bounds_check_witness :
    ((Graphics640x480x16.set_pixel initState 0 480 Color16Bit.White).planes 0
        (0 / 8 + 80 * 480)).testBit (7 - 0 % 8)
      = Color16Bit.White.toU8.testBit (0 : Fin 4).val :=
  (set_pixel_no_bounds_check initState 0 480 Color16Bit.White (Or.inr (by decide))).1 0

set_option maxRecDepth 4000 in
/-- C7: every call of `set_mode` first issues the mode switch to
`Mode640x480x16` and then, unconditionally, the load of the 768-byte default
palette — the trace of collaborator calls is exactly those two events in that
order. -/
theorem set_mode_switches_then_loads_palette :
    Graphics640x480x16.set_mode
      = [VgaEvent.setVideoMode VideoMode.Mode640x480x16,
         VgaEvent.loadPalette DEFAULT_PALETTE]
    ∧ DEFAULT_PALETTE.length = PALETTE_SIZE
    ∧ PALETTE_SIZE = 768 :=
  ⟨rfl, by decide, rfl⟩

/-- C8: `TextModeColor::new(fg, bg)` (a total function) yields the packed byte
`(bg code << 4) | fg code`, whose low nibble is `fg`'s code and whose high
nibble is `bg`'s code, for every pair of valid colors. -/
theorem textModeColor_new_packs (fg bg : Color16Bit) :
    (TextModeColor.new fg bg).val = (bg.toU8 <<< 4) ||| fg.toU8
    ∧ (TextModeColor.new fg bg).val &&& 0x0F = fg.toU8
    ∧ (TextModeColor.new fg bg).val >>> 4 = bg.toU8 :=
  ⟨rfl, nibble_pack_and _ _ (toU8_lt fg), nibble_pack_shift _ _ (toU8_lt fg)⟩

/-- C9: `set_background(c)` sets the high nibble to `c`'s code and leaves the
low (foreground) nibble bit-for-bit unchanged, for every constructed byte
value. -/
theorem set_background_preserves_foreground (v : Nat) (c : Color16Bit) (hv : v < 256) :
    ((TextModeColor.mk v).set_background c).val &&& 0x0F = v &&& 0x0F
    ∧ ((TextModeColor.mk v).set_background c).val >>> 4 = c.toU8
    ∧ ((TextModeColor.mk v).set_background c).val < 256 := by
  have h15 : v &&& 0x0F < 16 := by
    simpa using Nat.and_lt_two_pow v (show (0x0F : Nat) < 2 ^ 4 by norm_num)
  exact ⟨nibble_pack_and _ _ h15, nibble_pack_shift _ _ h15,
    nibble_pack_lt _ _ (toU8_lt c) h15⟩

/-- Witness for C9 on the byte 0x8E (foreground nibble 0xE) with Blue. -/
theorem set_background_preserves_foreground_witness :
    ((TextModeColor.mk 0x8E).set_background Color16Bit.Blue).val &&& 0x0F = 0x8E &&& 0x0F
    ∧ ((TextModeColor.mk 0x8E).set_background Color16Bit.Blue).val >>> 4
        = Color16Bit.Blue.toU8
    ∧ ((TextModeColor.mk 0x8E).set_background Color16Bit.Blue).val < 256 :=
  set_background_preserves_foreground 0x8E Color16Bit.Blue (by decide)

/-- C10: `set_pixel` is idempotent: applying it twice with the same arguments
yields exactly the state (frame buffer and registers) of applying it once,
because each per-plane step ORs in or ANDs out the same fixed mask. -/
theorem set_pixel_idempotent (st : VgaState) (x y : Nat) (c : Color16Bit)
    (hx : x < 640) (hy : y < 480) :
    Graphics640x480x16.set_pixel (Graphics640x480x16.set_pixel st x y c) x y c
      = Graphics640x480x16.set_pixel st x y c := by
  rw [set_pixel_eq st, set_pixel_eq]
  simp only [VgaState.mk.injEq, and_true, true_and]
  funext p o
  by_cases ho : o = pixelOffset x y <;>
    by_cases hc : c.toU8.testBit p.val <;>
      simp [ho, hc, Nat.or_assoc, Nat.or_self, Nat.and_assoc, Nat.and_self]

/-- Witness for C10 at `(0, 0)` with White on the all-zero state. -/
theorem set_pixel_idempotent_witness :
    Graphics640x480x16.set_pixel
        (Graphics640x480x16.set_pixel initState 0 0 Color16Bit.White) 0 0 Color16Bit.White
      = Graphics640x480x16.set_pixel initState 0 0 Color16Bit.White :=
  set_pixel_idempotent initState 0 0 Color16Bit.White (by decide) (by decide)
